import Mathlib

/-!
Verification of the pgql query-compiler core (`src/index.ts`,
`src/utils/string.ts`, `src/utils/db/pgTypesToGraphql.ts`).

The TypeScript functions are shallowly embedded as pure Lean functions.
JavaScript's in-place mutation of the shared parameter array and of
`table.defaultWhere` is modelled by explicit state passing: every function
that mutates its arguments in the source returns the updated values here.
JavaScript value conventions that the source relies on (string coercion via
`String(v)`, truthiness tests, `??`, first-occurrence `String.replace`)
are modelled by the small helpers below.
-/

namespace Pgql

/-- A JavaScript value as it occurs in the compiler's inputs and parameter
lists: strings, (integral) numbers, booleans and `null`.  Non-integral
numbers never occur in the behaviours verified here. -/
inductive JSVal : Type where
  | str (s : String)
  | int (n : Int)
  | bool (b : Bool)
  | null
deriving DecidableEq, Repr

/-- JavaScript `String(v)` on the values of `JSVal`. -/
def jsString : JSVal → String
  | .str s => s
  | .int n => toString n
  | .bool b => if b then "true" else "false"
  | .null => "null"

/-- JavaScript truthiness of a `JSVal` (`Boolean(v)`). -/
def jsTruthy : JSVal → Bool
  | .str s => s ≠ ""
  | .int n => n ≠ 0
  | .bool b => b
  | .null => false

/-- JavaScript truthiness of a possibly-missing `JSVal` (a missing object
property reads as `undefined`, which is falsy). -/
def jsTruthyOpt : Option JSVal → Bool
  | some v => jsTruthy v
  | none => false

/-- JavaScript truthiness of an optional string field such as
`table.defaultWhere`: `undefined` and the empty string are falsy. -/
def jsTruthyStrOpt : Option String → Bool
  | some s => s ≠ ""
  | none => false

/-- Plain-text first-occurrence replacement on character lists, the
semantics of JavaScript `String.prototype.replace` with a string pattern
(the replacement strings used by the source contain no special `$&`-style
patterns). -/
def replaceFirstAux (needle repl : List Char) : List Char → List Char
  | [] => if needle.isPrefixOf ([] : List Char) then repl else []
  | c :: cs =>
      if needle.isPrefixOf (c :: cs) then repl ++ (c :: cs).drop needle.length
      else c :: replaceFirstAux needle repl cs

/-- JavaScript `s.replace(needle, repl)` with a string pattern: replaces the
first occurrence only, returns `s` unchanged when the pattern is absent. -/
def replaceFirst (s needle repl : String) : String :=
  ⟨replaceFirstAux needle.toList repl.toList s.toList⟩

/-- Association-list lookup, the semantics of reading property `k` of a
JavaScript object modelled as an insertion-ordered key/value list. -/
def lookupAssoc (l : List (String × JSVal)) (k : String) : Option JSVal :=
  (l.find? (fun p => p.1 = k)).map Prod.snd

/-- `true` for `Except.ok`, `false` for `Except.error`; used to state
whether an embedded function threw. -/
def exceptIsOk {ε α : Type} : Except ε α → Bool
  | .ok _ => true
  | .error _ => false

/-- Spec-side measurement (not from the source): the list of indices `n` of
the `$n` positional placeholders occurring in a SQL string, in textual
order.  The scanner state is `none` outside a placeholder, `some none`
right after a `$`, and `some (some n)` while reading the digits of `n`. -/
def placeholderIndicesAux : List Char → Option (Option Nat) → List Nat
  | [], st => match st with
      | some (some n) => [n]
      | _ => []
  | c :: cs, st =>
      match st with
      | none =>
          if c = '$' then placeholderIndicesAux cs (some none)
          else placeholderIndicesAux cs none
      | some none =>
          if c.isDigit then placeholderIndicesAux cs (some (some (c.toNat - 48)))
          else if c = '$' then placeholderIndicesAux cs (some none)
          else placeholderIndicesAux cs none
      | some (some n) =>
          if c.isDigit then placeholderIndicesAux cs (some (some (n * 10 + (c.toNat - 48))))
          else if c = '$' then n :: placeholderIndicesAux cs (some none)
          else n :: placeholderIndicesAux cs none

/-- The `$n` placeholder indices appearing in a SQL string, in order. -/
def placeholderIndices (s : String) : List Nat :=
  placeholderIndicesAux s.toList none

/-! ## Data model (`src/index.ts`, types `Operations`, `Table`, `Column`,
`Variable`, `Schema`) -/

/-- `Operations` from `src/index.ts`. -/
inductive Operation : Type where
  | CREATE | READ | UPDATE | DELETE
deriving DecidableEq, Repr

/-- The `type` discriminator of `Table`. -/
inductive TableKind : Type where
  | table | view
deriving DecidableEq, Repr

/-- `VariableType` from `src/index.ts`. -/
inductive VariableType : Type where
  | string | int | float | boolean
deriving DecidableEq, Repr

/-- `Variable` from `src/index.ts`. -/
structure Variable where
  name : String
  type : VariableType
  description : Option String := none
  nullable : Bool
deriving DecidableEq, Repr

/-- The `data` payload of `Column.foreignKey`. -/
structure ForeignKeyData where
  nexusObjectName : Option String := none
  referencedSchema : String
  referencedTable : String
  referencedColumn : String
deriving DecidableEq, Repr

/-- `Column.foreignKey` from `src/index.ts`. -/
structure ForeignKey where
  is : Bool
  data : Option ForeignKeyData := none
deriving DecidableEq, Repr

/-- `Column` from `src/index.ts`. -/
structure Column where
  name : String
  description : Option String := none
  type : String
  oid : Nat
  nullable : Bool
  isPrimaryKey : Bool
  foreignKey : ForeignKey
deriving DecidableEq, Repr

/-- `Table` from `src/index.ts`. -/
structure Table where
  name : String
  description : Option String := none
  columns : List Column
  operations : List Operation
  type : TableKind
  «variables» : Option (List Variable) := none
  defaultWhere : Option String := none
  cols : Option (List String) := none
deriving DecidableEq, Repr

/-- `Omit<Schema, 'tables'>`, the schema argument of the query builders. -/
structure SchemaName where
  name : String
deriving DecidableEq, Repr

/-! ## Type mapper (`src/utils/db/pgTypesToGraphql.ts`) -/

/-- The semantic kinds `Scalar | CustomScalar` of `pgTypesToGraphql.ts`. -/
inductive GType : Type where
  | string | int | float | boolean | Point | Circle | Interval
deriving DecidableEq, Repr

/-- One entry of the `TypeObject` lookup table. -/
structure TypeInfo where
  type : GType
  isArray : Bool
deriving DecidableEq, Repr

/-- The oid lookup table built by the `register` calls inside `getType`, in
source order.  Every `register` call supplies the kind explicitly and
`isArray ?? false` fills the array flag, so each entry is concrete.  All
oids are distinct, so the JS object is exactly this association list. -/
def typeRegistry : List (Nat × TypeInfo) := [
  (20, ⟨.int, false⟩), (21, ⟨.int, false⟩), (23, ⟨.int, false⟩), (26, ⟨.int, false⟩),
  (1700, ⟨.float, false⟩), (700, ⟨.float, false⟩), (701, ⟨.float, false⟩),
  (16, ⟨.boolean, false⟩), (1082, ⟨.string, false⟩), (1114, ⟨.string, false⟩),
  (1184, ⟨.string, false⟩), (600, ⟨.Point, false⟩), (651, ⟨.string, true⟩),
  (718, ⟨.Circle, false⟩), (1000, ⟨.boolean, true⟩), (1001, ⟨.string, true⟩),
  (1005, ⟨.int, true⟩), (1007, ⟨.int, true⟩), (1028, ⟨.int, true⟩), (1016, ⟨.int, true⟩),
  (1017, ⟨.Point, true⟩), (1021, ⟨.float, true⟩), (1022, ⟨.float, true⟩),
  (1231, ⟨.float, true⟩), (1014, ⟨.string, true⟩), (1015, ⟨.string, true⟩),
  (1008, ⟨.string, true⟩), (1009, ⟨.string, true⟩), (1040, ⟨.string, true⟩),
  (1041, ⟨.string, true⟩), (1115, ⟨.string, true⟩), (1182, ⟨.string, true⟩),
  (1185, ⟨.string, true⟩), (1186, ⟨.Interval, false⟩), (1187, ⟨.Interval, true⟩),
  (17, ⟨.string, false⟩), (114, ⟨.string, false⟩), (3802, ⟨.string, false⟩),
  (199, ⟨.string, true⟩), (3807, ⟨.string, true⟩), (3907, ⟨.string, true⟩),
  (2951, ⟨.string, true⟩), (791, ⟨.string, true⟩), (1183, ⟨.string, true⟩),
  (1270, ⟨.string, true⟩)]

/-- `getType` from `pgTypesToGraphql.ts`: `types[oid] || { type: 'string' }`.
The fallback object omits `isArray`; reading that missing property yields
`undefined`, which every consumer (`if (isArray)`-style tests) treats
exactly as `false`, so the fallback is modelled as `isArray := false`. -/
def getType (oid : Nat) : TypeInfo :=
  ((typeRegistry.find? (fun p => p.1 = oid)).map Prod.snd).getD ⟨.string, false⟩

/-! ## Name-pattern matcher (`src/utils/string.ts`, `matchGitignorePattern`)

The source performs three global `replace` passes on the pattern —
escape the character class `[-[]/{}()+?.\^$|]` to `\c`, then `*` to `.*`,
then `?` to `.{1}` — and tests the string against `new RegExp('^'+r+'$')`.
Each pass is a per-character rewrite, embedded below; the final anchored
`RegExp.test` is embedded as a total match of the produced atom sequence. -/

/-- The characters matched by the escaping class of the first `replace`
pass (note: `*` is deliberately absent from the class). -/
def regexMetachars : List Char := ("-[]/" ++ "\x7b\x7d" ++ "()+?.\\^$|").toList

/-- First pass: `replace(/[...]/g, '\$&')`. -/
def escapeRegExpPass (s : List Char) : List Char :=
  s.flatMap (fun c => if regexMetachars.contains c then ['\\', c] else [c])

/-- Second pass: `replace(/[*]/g, '.*')`. -/
def starPass (s : List Char) : List Char :=
  s.flatMap (fun c => if c = '*' then ['.', '*'] else [c])

/-- Third pass: `replace(/[?]/g, '.{1}')`. -/
def questionPass (s : List Char) : List Char :=
  s.flatMap (fun c => if c = '?' then '.' :: "\x7b1\x7d".toList else [c])

/-- The regular-expression body produced from a glob pattern by the three
passes, before the `^`/`$` anchors are added. -/
def gitignoreRegexChars (pattern : String) : List Char :=
  questionPass (starPass (escapeRegExpPass pattern.toList))

/-- An atom of the fragment of JavaScript regular expressions the three
passes can produce: an (escaped or plain) literal character, an unescaped
dot, or `.*`. -/
inductive RAtom : Type where
  | lit (c : Char)
  | anyChar
  | anyRun
deriving DecidableEq, Repr

/-- Drop an exactly-once quantifier `{1}` following an atom (a no-op in
regular-expression semantics). -/
def stripQuantOne (s : List Char) : List Char :=
  if ("\x7b1\x7d".toList).isPrefixOf s then s.drop 3 else s

/-- Regex constructs that cannot occur bare in the modelled fragment. -/
def bareForbidden : List Char := ("*+?()[]|^$" ++ "\x7b\x7d").toList

/-- Fuelled parser of the produced regex bodies into atom sequences:
`\c` is a literal, `.*` matches any run, a bare `.` any single character,
and any other unescaped character is a literal; `{1}` after an atom is
dropped.  The fuel only totalises the recursion; `body.length + 1` is
always sufficient since every step consumes at least one character. -/
def parseAtomsF : Nat → List Char → Option (List RAtom)
  | 0, _ => none
  | _ + 1, [] => some []
  | fuel + 1, '\\' :: c :: rest => (parseAtomsF fuel (stripQuantOne rest)).map (RAtom.lit c :: ·)
  | _ + 1, ['\\'] => none
  | fuel + 1, '.' :: '*' :: rest => (parseAtomsF fuel rest).map (RAtom.anyRun :: ·)
  | fuel + 1, '.' :: rest => (parseAtomsF fuel (stripQuantOne rest)).map (RAtom.anyChar :: ·)
  | fuel + 1, c :: rest =>
      if bareForbidden.contains c then none
      else (parseAtomsF fuel (stripQuantOne rest)).map (RAtom.lit c :: ·)

/-- Fuelled matcher for atom sequences against a character list; with the
`^`/`$` anchors the source's `RegExp.test` is exactly a total match.
`atoms.length + s.length + 1` fuel always suffices: every recursive call
strictly decreases the combined length. -/
def matchAtomsF : Nat → List RAtom → List Char → Bool
  | 0, _, _ => false
  | _ + 1, [], [] => true
  | _ + 1, [], _ :: _ => false
  | fuel + 1, .lit c :: as, s =>
      match s with
      | [] => false
      | x :: xs => c = x && matchAtomsF fuel as xs
  | fuel + 1, .anyChar :: as, s =>
      match s with
      | [] => false
      | _ :: xs => matchAtomsF fuel as xs
  | fuel + 1, .anyRun :: as, s =>
      matchAtomsF fuel as s ||
        (match s with
         | [] => false
         | _ :: xs => matchAtomsF fuel (.anyRun :: as) xs)

/-- `matchGitignorePattern` from `src/utils/string.ts`: translate the glob
pattern and test the string against the anchored result.  `none` would
mean the produced regex left the modelled fragment, which no translated
pattern does. -/
def matchGitignorePattern (pattern str : String) : Option Bool :=
  let body := gitignoreRegexChars pattern
  (parseAtomsF (body.length + 1) body).map
    (fun atoms => matchAtomsF (atoms.length + str.length + 1) atoms str.toList)

/-! ## Filter compiler (`src/index.ts`, `whereSQL` and its helpers)

The caller-facing condition tree: a JS object whose entries are either the
keys `AND`/`OR` holding a list of sub-nodes, or a column name holding a
`{ SINGLE?, ARRAY? }` condition object.  A node is modelled as its
insertion-ordered entry list.  (Under the generated GraphQL input types the
`AND`/`OR` keys always hold node lists and every other key a condition
object, which is what the constructors encode.) -/

/-- `SingleConditions | ArrayConditions` from `src/index.ts`. -/
inductive CondOp : Type where
  | EQUAL | NOT_EQUAL | LESS_THAN | LESS_THAN_OR_EQUAL | GREATER_THAN | GREATER_THAN_OR_EQUAL
  | LIKE | ILIKE | NOT_LIKE | NOT_ILIKE | IS_NULL | IS_NOT_NULL
  | BETWEEN | NOT_BETWEEN | IN | NOT_IN
deriving DecidableEq, Repr

/-- The `operators` lookup table from `src/index.ts`. -/
def operators : CondOp → String
  | .EQUAL => "="
  | .NOT_EQUAL => "<>"
  | .LESS_THAN => "<"
  | .LESS_THAN_OR_EQUAL => "<="
  | .GREATER_THAN => ">"
  | .GREATER_THAN_OR_EQUAL => ">="
  | .LIKE => "LIKE"
  | .ILIKE => "ILIKE"
  | .NOT_LIKE => "NOT LIKE"
  | .NOT_ILIKE => "NOT ILIKE"
  | .BETWEEN => "BETWEEN"
  | .NOT_BETWEEN => "NOT BETWEEN"
  | .IN => "IN"
  | .NOT_IN => "NOT IN"
  | .IS_NULL => "IS NULL"
  | .IS_NOT_NULL => "IS NOT NULL"

/-- `nullableOperators` from `src/index.ts`. -/
def nullableOperators : List CondOp := [.IS_NULL, .IS_NOT_NULL]

/-- `SingleCondition` from `src/index.ts` (`value?: any`, a scalar). -/
structure SingleCond where
  condition : CondOp
  value : Option JSVal
deriving DecidableEq, Repr

/-- `ArrayCondition` from `src/index.ts` (`value: any[]`). -/
structure ArrayCond where
  condition : CondOp
  value : List JSVal
deriving DecidableEq, Repr

mutual
/-- One `ANDType`/`ORType` object of the condition tree: its entry list. -/
inductive WhereNode : Type where
  | mk (entries : WhereEntries)

/-- The insertion-ordered entries of a condition-tree node. -/
inductive WhereEntries : Type where
  | nil
  | cons (e : WhereEntry) (rest : WhereEntries)

/-- One entry of a condition-tree node: the `AND` key with its sub-node
list, the `OR` key with its sub-node list, or a column-name key with its
`{ SINGLE?, ARRAY? }` condition object. -/
inductive WhereEntry : Type where
  | subAND (children : WhereNodes)
  | subOR (children : WhereNodes)
  | leaf (key : String) (single : Option SingleCond) (arr : Option ArrayCond)

/-- A list of condition-tree nodes (the value of an `AND`/`OR` key). -/
inductive WhereNodes : Type where
  | nil
  | cons (n : WhereNode) (rest : WhereNodes)
end

/-- `WhereType` from `src/index.ts`: the optional top-level `AND`/`OR`
node lists. -/
structure WhereType where
  AND : Option WhereNodes := none
  OR : Option WhereNodes := none

/-- The argument of `mapCondition`: `SINGLE ?? ARRAY`, dispatched inside on
`Array.isArray(c.value)` (a `SINGLE` value is a scalar, an `ARRAY` value a
list, so the dispatch coincides with which condition was present). -/
inductive CondValue : Type where
  | scalar (v : Option JSVal)
  | array (vs : List JSVal)
deriving DecidableEq, Repr

/-- `mapCondition` from `whereSQL` (lines 568-591): appends the condition's
values to the parameter list and renders the operator fragment.  Note that
in the array branch the emitted placeholders are `'$' + (i + 1)` over the
freshly pushed slice only — they restart at `$1` regardless of how many
parameters the list already holds and of `startVarIndex` — while the
scalar branch uses `values.length + (startVarIndex ?? 0)` after pushing. -/
def mapCondition (startVarIndex : Option Nat) (values : List JSVal)
    (condition : CondOp) (cv : CondValue) (ty : String) : List JSVal × String :=
  match cv with
  | .array vs =>
      let values1 := values ++ vs.map (fun v => JSVal.str (jsString v))
      (values1,
        operators condition ++ " (" ++
          String.intercalate ("::" ++ ty ++ ", ")
            ((List.range vs.length).map (fun i => "$" ++ toString (i + 1))) ++
          "::" ++ ty ++ ")")
  | .scalar v =>
      match v with
      | some vv =>
          let values1 := values ++ [JSVal.str (jsString vv)]
          (values1, operators condition ++ " $" ++ toString (values1.length + startVarIndex.getD 0) ++ "::" ++ ty)
      | none => (values, operators condition)

/-- The deferred rendering of the `conditions` collected by `mapWhere`
(line 624-627): each `{col, condition}` pair becomes
`name ++ " " ++ mapCondition(SINGLE ?? ARRAY, col.type)` (or `1 = 1` when
both are absent), threading the shared parameter list left to right. -/
def mapConditions (startVarIndex : Option Nat) :
    List (Column × Option SingleCond × Option ArrayCond) → List JSVal → List JSVal × List String
  | [], values => (values, [])
  | (col, s, a) :: rest, values =>
      let r : List JSVal × String :=
        match s, a with
        | none, none => (values, "1 = 1")
        | some sc, _ =>
            let r0 := mapCondition startVarIndex values sc.condition (.scalar sc.value) col.type
            (r0.1, col.name ++ " " ++ r0.2)
        | none, some ac =>
            let r0 := mapCondition startVarIndex values ac.condition (.array ac.value) col.type
            (r0.1, col.name ++ " " ++ r0.2)
      let r2 := mapConditions startVarIndex rest r.1
      (r2.1, r.2 :: r2.2)

/-- The accumulator of `mapWhere`'s `keys.forEach` walk: the shared
parameter list, the collected leaf conditions, and the `subAND`/`subOR`
strings. -/
structure MapWhereState where
  values : List JSVal
  conditions : List (Column × Option SingleCond × Option ArrayCond)
  subAND : Option String
  subOR : Option String

mutual
/-- One step of `mapWhere`'s `keys.forEach` (lines 599-621).  An `AND`/`OR`
entry compiles each child with the *key* as its connective but joins the
child strings with the *outer* connective, and assigns the result to
`subAND`/`subOR`; a column entry is collected when the column resolves and
the condition carries a value or a nullary operator; an unresolved column
is skipped.  (A `leaf` keyed `AND`/`OR` cannot arise from the generated
GraphQL input types; the source would fault there, and it is skipped.) -/
def mapWhereEntry (t : Table) (startVarIndex : Option Nat) (ty : String) :
    WhereEntry → MapWhereState → MapWhereState
  | .subAND children, st =>
      let r := mapWhereList t startVarIndex "AND" children st.values
      { st with values := r.1, subAND := some (String.intercalate (" " ++ ty ++ " ") r.2) }
  | .subOR children, st =>
      let r := mapWhereList t startVarIndex "OR" children st.values
      { st with values := r.1, subOR := some (String.intercalate (" " ++ ty ++ " ") r.2) }
  | .leaf k s a, st =>
      if k = "AND" ∨ k = "OR" then st
      else
        match t.columns.find? (fun c => c.name = k) with
        | some col =>
            let keep : Bool :=
              match s with
              | some sc => sc.value.isSome || nullableOperators.contains sc.condition
              | none => a.isSome
            if keep then { st with conditions := st.conditions ++ [(col, s, a)] } else st
        | none => st

/-- `mapWhere`'s walk over a node's entries, threading the accumulator. -/
def mapWhereEntries (t : Table) (startVarIndex : Option Nat) (ty : String) :
    WhereEntries → MapWhereState → MapWhereState
  | .nil, st => st
  | .cons e rest, st => mapWhereEntries t startVarIndex ty rest (mapWhereEntry t startVarIndex ty e st)

/-- `mapWhere` from `whereSQL` (lines 593-634): walk the entries, then
render the collected conditions (consuming parameter slots only now), then
append the parenthesised `subAND`/`subOR` parts when truthy, joining all
with the node's connective. -/
def mapWhere (t : Table) (startVarIndex : Option Nat) :
    WhereNode → String → List JSVal → List JSVal × String
  | .mk entries, ty, values =>
      let st := mapWhereEntries t startVarIndex ty entries ⟨values, [], none, none⟩
      let r := mapConditions startVarIndex st.conditions st.values
      let andPart : List String :=
        match st.subAND with
        | some s => if s = "" then [] else ["(" ++ s ++ ")"]
        | none => []
      let orPart : List String :=
        match st.subOR with
        | some s => if s = "" then [] else ["(" ++ s ++ ")"]
        | none => []
      let parts := (r.2 ++ andPart ++ orPart).filter (fun s => s ≠ "")
      (r.1, String.intercalate (" " ++ ty ++ " ") parts)

/-- `va.map(v => mapWhere(v, key))` over a node list, threading the shared
parameter list left to right. -/
def mapWhereList (t : Table) (startVarIndex : Option Nat) (key : String) :
    WhereNodes → List JSVal → List JSVal × List String
  | .nil, values => (values, [])
  | .cons n rest, values =>
      let r := mapWhere t startVarIndex n key values
      let r2 := mapWhereList t startVarIndex key rest r.1
      (r2.1, r.2 :: r2.2)
end

/-- The `defaultWhere` rewriting of `whereSQL` (lines 639-644): for each
declared variable, in order, replace the first occurrence of
`"$" ++ name` by `"$" ++ (i + (startVarIndex ?? 0))` — the first variable
receives index `0 + (startVarIndex ?? 0)`. -/
def substituteDefaultWhere (vars : List Variable) (startVarIndex : Option Nat)
    (dw : Option String) : Option String :=
  (vars.enum).foldl
    (fun d iv =>
      d.map (fun s => replaceFirst s ("$" ++ iv.2.name) ("$" ++ toString (iv.1 + startVarIndex.getD 0))))
    dw

/-- The result of `whereSQL`: the predicate string, the parameter list it
mutated, and the table it mutated (the source rewrites
`table.defaultWhere` in place). -/
structure WhereSQLResult where
  sql : String
  values : List JSVal
  table : Table
deriving DecidableEq, Repr

/-- `whereSQL` from `src/index.ts` (lines 562-650): compile the `AND` node
list, then the `OR` node list, then rewrite the table's `defaultWhere`
variables, and assemble
`WHERE [(dw) = TRUE AND ]<AND parts ∥ OR parts>`. -/
def whereSQL (w : WhereType) (values : List JSVal) (t : Table)
    (startVarIndex : Option Nat) : WhereSQLResult :=
  let r1 : List JSVal × Option (List String) :=
    match w.AND with
    | some nodes =>
        let r := mapWhereList t startVarIndex "AND" nodes values
        (r.1, some r.2)
    | none => (values, none)
  let r2 : List JSVal × Option (List String) :=
    match w.OR with
    | some nodes =>
        let r := mapWhereList t startVarIndex "OR" nodes r1.1
        (r.1, some r.2)
    | none => (r1.1, none)
  let t2 : Table :=
    if jsTruthyStrOpt t.defaultWhere && t.variables.isSome then
      { t with defaultWhere := substituteDefaultWhere (t.variables.getD []) startVarIndex t.defaultWhere }
    else t
  let dwPart : String :=
    match t2.defaultWhere with
    | some s => if s ≠ "" then "(" ++ s ++ ") = TRUE AND " else ""
    | none => ""
  let clause := String.intercalate " AND "
    (List.filterMap id [r1.2.map (String.intercalate " AND "), r2.2.map (String.intercalate " OR ")])
  ⟨"WHERE " ++ dwPart ++ clause, r2.1, t2⟩

/-! ## Mutation builders (`src/index.ts`, `makeMutationCreate`,
`makeMutationUpdate`, `makeMutationDelete`) -/

/-- An element of `makeMutationCreate`'s `finalValues` array: a row of
column values, or a raw variables object appended by
`finalValues.push(v as any)` (line 699). -/
inductive CreateRow : Type where
  | vals (l : List JSVal)
  | obj (o : List (String × JSVal))
deriving DecidableEq, Repr

/-- An element of the flattened (`finalValues.flat()`) parameter list of a
create statement: `Array.prototype.flat` splices row arrays one level but
keeps non-array elements (the pushed variables objects) as they are. -/
inductive CreateElem : Type where
  | scalar (v : JSVal)
  | object (o : List (String × JSVal))
deriving DecidableEq, Repr

/-- `MutationCreateReturn` from `src/index.ts`. -/
structure MutationCreateReturn where
  query : String
  values : List CreateElem
deriving DecidableEq, Repr

/-- The projected column set of `makeMutationCreate` (lines 692-694):
with a non-empty `cols` allow-list, non-nullable columns plus allow-listed
columns; otherwise all columns. -/
def createKeys (t : Table) : List String :=
  (t.columns.filter (fun c =>
    match t.cols with
    | some cs => if cs.length > 0 then (!c.nullable || cs.contains c.name) else true
    | none => true)).map (fun c => c.name)

/-- `finalValues.flat()` (line 716). -/
def createFlat : List CreateRow → List CreateElem
  | [] => []
  | .vals l :: rest => l.map CreateElem.scalar ++ createFlat rest
  | .obj o :: rest => CreateElem.object o :: createFlat rest

/-- The `v.map((_, i) => ...)` placeholder row of `makeMutationCreate`
(lines 706, 710): row `m` uses `$<keys.length * m + i + 1>`.  Calling
`.map` on a pushed variables *object* is a JavaScript `TypeError`,
modelled as a thrown error. -/
def rowPlaceholders (keysLen m : Nat) : CreateRow → Except String String
  | .vals l =>
      .ok (String.intercalate ", "
        ((List.range l.length).map (fun i => "$" ++ toString (keysLen * m + (i + 1)))))
  | .obj _ => .error "TypeError: v.map is not a function"

/-- `makeMutationCreate` from `src/index.ts` (lines 674-718).  The
required-variable check (lines 682-690) throws `Variable <name> is
required` for the first non-nullable `defaultWhere` variable that is falsy
(or absent) in some supplied variables object — it does not run at all
when the `variables` argument is omitted.  Each supplied variables object
is pushed onto `finalValues` and the first occurrence of
`"$" ++ v.name` — the `name` *property of the variables object*, normally
`undefined` — is replaced in `defaultWhere` by the bare number
`finalValues.length - i`.  With a truthy (post-rewrite) `defaultWhere`
the `SELECT ... WHERE (dw)` form is built over
`finalValues.slice(0, finalValues.length - (table.variables?.length ?? 0))`
(JavaScript slice semantics for a negative end index), otherwise the
`VALUES (...), (...)` form over all of `finalValues`. -/
def makeMutationCreate (schema : SchemaName) (t : Table)
    (values : List (List (String × JSVal)))
    («variables» : Option (List (List (String × JSVal)))) : Except String MutationCreateReturn :=
  let requiredVars := (t.variables.getD []).filter (fun v => !v.nullable && jsTruthyStrOpt t.defaultWhere)
  match requiredVars.findSome? (fun v =>
      («variables».getD []).findSome? (fun va =>
        if jsTruthyOpt (lookupAssoc va v.name) then none else some v.name)) with
  | some vname => .error ("Variable " ++ vname ++ " is required")
  | none =>
      let keys := createKeys t
      let finalValues0 : List CreateRow :=
        values.map (fun v => .vals (keys.map (fun k => (lookupAssoc v k).getD JSVal.null)))
      let acc1 : List CreateRow × Option String :=
        ((«variables».getD []).enum).foldl
          (fun acc iva =>
            let fv := acc.1 ++ [CreateRow.obj iva.2]
            let needle := "$" ++ (match lookupAssoc iva.2 "name" with
              | some v => jsString v
              | none => "undefined")
            (fv, acc.2.map (fun s => replaceFirst s needle (toString (fv.length - iva.1)))))
          (finalValues0, t.defaultWhere)
      let finalValues1 := acc1.1
      let dw1 := acc1.2
      let stringValuesE : Except String String :=
        if jsTruthyStrOpt dw1 then
          let cut : Int := (finalValues1.length : Int) - ((t.variables.getD []).length : Int)
          let takeN : Nat := if cut ≥ 0 then cut.toNat else ((finalValues1.length : Int) + cut).toNat
          (((finalValues1.take takeN).enum).mapM (fun mr => rowPlaceholders keys.length mr.1 mr.2)).map
            (fun strs => "SELECT " ++ String.intercalate ", " strs ++ " WHERE (" ++ dw1.getD "" ++ ")")
        else
          ((finalValues1.enum).mapM (fun mr => rowPlaceholders keys.length mr.1 mr.2)).map
            (fun strs => "VALUES " ++ String.intercalate ", " (strs.map (fun s => "(" ++ s ++ ")")))
      match stringValuesE with
      | .error e => .error e
      | .ok strVals =>
          .ok ⟨"INSERT INTO " ++ schema.name ++ "." ++ t.name ++ "(" ++ String.intercalate ", " keys
                ++ ") " ++ strVals ++ " RETURNING *",
              createFlat finalValues1⟩

/-- `MutationUpdateReturn` from `src/index.ts`. -/
structure MutationUpdateReturn where
  query : String
  whereQuery : String
  values : List JSVal
deriving DecidableEq, Repr

/-- The `keys` of `makeMutationUpdate` (lines 745-747): the value-object
keys mapped to `null` unless contained in `cols ?? column names` and then
`filter(Boolean)` — which also drops a key that is the empty string. -/
def updateKeys (t : Table) (value : List (String × JSVal)) : List String :=
  (value.map Prod.fst).filter
    (fun k => (t.cols.getD (t.columns.map (fun c => c.name))).contains k && k ≠ "")

/-- `updateValues` of `makeMutationUpdate` (line 751): `value[k] ?? null`. -/
def updateValuesList (t : Table) (value : List (String × JSVal)) : List JSVal :=
  (updateKeys t value).map (fun k => (lookupAssoc value k).getD JSVal.null)

/-- `makeMutationUpdate` from `src/index.ts` (lines 738-766): predicate
from `whereSQL` when the tree has an `AND` or `OR` branch, otherwise the
impossible predicate; the update values are appended to the parameter list
after the predicate's parameters.  (The source's in-place mutation of
`table.defaultWhere` inside `whereSQL` is not part of the return value.) -/
def makeMutationUpdate (schema : SchemaName) (t : Table)
    (value : List (String × JSVal)) (w : WhereType) : MutationUpdateReturn :=
  let keys := updateKeys t value
  let updateValues := updateValuesList t value
  let rw : String × List JSVal :=
    if w.AND.isSome || w.OR.isSome then
      let r := whereSQL w [] t none
      (r.sql, r.values)
    else ("WHERE TRUE IS FALSE", [])
  let values := rw.2 ++ updateValues
  let query := "UPDATE " ++ schema.name ++ "." ++ t.name ++ " SET (" ++ String.intercalate ", " keys
      ++ ") = (" ++ String.intercalate ", "
        ((List.range updateValues.length).map (fun i => "$" ++ toString (rw.2.length + i + 1)))
      ++ ") " ++ rw.1 ++ " RETURNING *"
  ⟨query, rw.1, values⟩

/-- `MutationDeleteReturn` from `src/index.ts`. -/
structure MutationDeleteReturn where
  query : String
  whereQuery : String
  values : List JSVal
deriving DecidableEq, Repr

/-- `makeMutationDelete` from `src/index.ts` (lines 785-797). -/
def makeMutationDelete (schema : SchemaName) (t : Table) (w : WhereType) : MutationDeleteReturn :=
  let rw : String × List JSVal :=
    if w.AND.isSome || w.OR.isSome then
      let r := whereSQL w [] t none
      (r.sql, r.values)
    else ("WHERE TRUE IS FALSE", [])
  ⟨"DELETE FROM " ++ schema.name ++ "." ++ t.name ++ " " ++ rw.1 ++ " RETURNING *", rw.1, rw.2⟩

/-! ## Select builder (`src/index.ts`, `makeQuery`) and pagination -/

/-- `QueryReturn` from `src/index.ts`. -/
structure QueryReturn where
  query : String
  values : List JSVal
  orderByQuery : Option String
  whereQuery : Option String
deriving DecidableEq, Repr

/-- `requiredVariables` of `makeQuery` (line 844): the names of the
table's non-nullable variables, provided the table has a truthy
`defaultWhere`. -/
def requiredVariables (t : Table) : List String :=
  ((t.variables.getD []).filter (fun v => !v.nullable && jsTruthyStrOpt t.defaultWhere)).map
    (fun v => v.name)

/-- `orderBySQL` of `makeQuery` (lines 860-868): the whole clause is
dropped when the map is empty or any direction is malformed. -/
def orderBySQL (orderBy : List (String × String)) : String :=
  let keys := orderBy.map Prod.fst
  if keys.length ≤ 0 || !(orderBy.all (fun kv => kv.2 = "ASC" || kv.2 = "DESC")) then ""
  else "ORDER BY " ++ String.intercalate ", " (orderBy.map (fun kv => kv.1 ++ " " ++ kv.2))

/-- `makeQuery` from `src/index.ts` (lines 829-888).  The variable check
(lines 845-847) throws when some *supplied* key is not among
`requiredVariables` — `Object.keys(variables ?? {}).every(v =>
requiredVariables.includes(v))` — and the error text reads `One required
variable is missing. ...`.  The parameter list is seeded with the truthy
supplied variable values (stringified), padded with `null`s up to the
declared variable count, extended by the predicate's parameters, and
closed by the stringified limit and offset bound to the last two
placeholder slots. -/
def makeQuery (schema : SchemaName) (t : Table) (limit offset : Int)
    (w : Option WhereType) («variables» : Option (List (String × JSVal)))
    (orderBy : Option (List (String × String))) (cols : Option (List String)) :
    Except String QueryReturn :=
  let colsSQL : String :=
    match cols with
    | some cs =>
        if cs.length > 0 && cs.all (fun c => (t.columns.find? (fun cc => cc.name = c)).isSome)
        then String.intercalate ", " cs else "*"
    | none => "*"
  if !(((«variables».getD []).map Prod.fst).all (fun v => (requiredVariables t).contains v)) then
    .error ("One required variable is missing. Required variables: "
      ++ String.intercalate ", " (requiredVariables t))
  else
    let values0 : List JSVal :=
      (((«variables».getD []).map Prod.snd).filter jsTruthy).map (fun v => JSVal.str (jsString v))
    let values1 : List JSVal :=
      if values0.length < (t.variables.getD []).length then
        values0 ++ List.replicate ((t.variables.getD []).length - values0.length) JSVal.null
      else values0
    let obq : String := match orderBy with | some ob => orderBySQL ob | none => ""
    let fallbackWhere : String := "WHERE " ++ (match t.defaultWhere with
      | some s => if s ≠ "" then "(" ++ s ++ ") = TRUE" else "TRUE = TRUE"
      | none => "TRUE = TRUE")
    let rw : String × List JSVal :=
      match w with
      | some ww =>
          if ww.AND.isSome || ww.OR.isSome then
            let r := whereSQL ww values1 t none
            (r.sql, r.values)
          else (fallbackWhere, values1)
      | none => (fallbackWhere, values1)
    let values2 := rw.2 ++ [JSVal.str (jsString (JSVal.int limit)), JSVal.str (jsString (JSVal.int offset))]
    let query := "SELECT " ++ colsSQL ++ " FROM " ++ schema.name ++ "." ++ t.name ++ " " ++ rw.1
      ++ " " ++ obq ++ " LIMIT $" ++ toString (values2.length - 1) ++ "::integer OFFSET $"
      ++ toString values2.length ++ "::integer"
    .ok ⟨query, values2,
        (if obq.length < 1 then none else some obq),
        (if rw.1.length < 1 then none else some rw.1)⟩

/-- `getPagesQuery` from `src/index.ts` (lines 898-902). -/
def getPagesQuery (schemaName tableName : String) (w : Option (String × Int)) : String :=
  "SELECT (count(*) / $" ++ toString ((w.map Prod.snd).getD 1)
    ++ ") as pages, count(*) as total_rows FROM " ++ schemaName ++ "." ++ tableName ++ " "
    ++ (w.map Prod.fst).getD ""

/-- The page-size clamp of the READ resolver (lines 1613-1615):
`args.maxRows <= 100 && args.maxRows > 0 ? args.maxRows : 100`. -/
def numberOfResults (maxRows : Int) : Int :=
  if maxRows ≤ 100 ∧ maxRows > 0 then maxRows else 100

/-- The zero-based page index of the READ resolver (line 1616):
`Number(args.page) >= 0 ? Number(args.page) - 1 : 0`. -/
def resolverPageNumber (page : Int) : Int :=
  if page ≥ 0 then page - 1 else 0

/-- The offset passed by the READ resolver to `makeQuery` (line 1621):
`pageNumber * numberOfResults`. -/
def resolverOffset (page maxRows : Int) : Int :=
  resolverPageNumber page * numberOfResults maxRows

/-- The `currentPage` field returned by the READ resolver (line 1661):
`pageNumber <= 0 ? 1 : pageNumber`. -/
def resolverCurrentPage (page : Int) : Int :=
  if resolverPageNumber page ≤ 0 then 1 else resolverPageNumber page

/-- The `pages` field returned by the READ resolver (line 1658): `pages +
1` when the count query yielded a number, else `1`; `none` models a
missing/NaN count. -/
def resolverPagesField (pages : Option Int) : Int :=
  match pages with
  | some p => p + 1
  | none => 1

/-- The `hasNextPage` field returned by the READ resolver (lines
1663-1666): `(pages invalid ? 0 : pages) - pageNumber > 0`, computed from
the *raw* count-query `pages` and the zero-based `pageNumber`. -/
def resolverHasNextPage (pages : Option Int) (page : Int) : Bool :=
  decide (pages.getD 0 - resolverPageNumber page > 0)

/-! ## Concrete sample inputs used by several theorems -/

/-- An `int4` column named `a` (oid 23, as introspection produces it). -/
def colA : Column :=
  { name := "a", type := "int4", oid := 23, nullable := false, isPrimaryKey := false,
    foreignKey := ⟨false, none⟩ }

/-- An `int4` column named `b`. -/
def colB : Column :=
  { name := "b", type := "int4", oid := 23, nullable := false, isPrimaryKey := false,
    foreignKey := ⟨false, none⟩ }

/-- A plain two-column table with no `defaultWhere` and no variables. -/
def tblTwoInts : Table :=
  { name := "items", columns := [colA, colB], operations := [.READ, .DELETE], type := .table }

/-- The condition tree `{AND: [{a: {SINGLE: EQUAL 1}, b: {ARRAY: IN [2,3]}}]}`. -/
def whereANDArray : WhereType :=
  { AND := some (.cons (.mk (.cons (.leaf "a" (some ⟨.EQUAL, some (.int 1)⟩) none)
      (.cons (.leaf "b" none (some ⟨.IN, [.int 2, .int 3]⟩)) .nil))) .nil) }

/-- A non-nullable declared variable named `v`. -/
def varV : Variable := { name := "v", type := .int, nullable := false }

/-- A table whose `defaultWhere` is the template `$v = TRUE` over the
required (non-nullable) variable `v`. -/
def tblGuarded : Table :=
  { name := "guarded", columns := [colA], operations := [.READ, .CREATE], type := .table,
    «variables» := some [varV], defaultWhere := some "$v = TRUE" }

/-- The condition tree `{AND: [{a: {SINGLE: EQUAL 5}}]}`. -/
def whereEq5 : WhereType :=
  { AND := some (.cons (.mk (.cons (.leaf "a" (some ⟨.EQUAL, some (.int 5)⟩) none) .nil)) .nil) }

/-! ## Theorems -/

/-- Claim C8: `getType` returns `{string, false}` for every oid absent
from the lookup table, and the registered kind and array flag for every
registered oid — in particular `1000 ↦ {boolean, true}`,
`23 ↦ {int, false}` and `1186 ↦ {Interval, false}`. -/
theorem getType_registered_and_default :
    (∀ oid : Nat, oid ∉ typeRegistry.map Prod.fst → getType oid = ⟨GType.string, false⟩)
    ∧ getType 1000 = ⟨GType.boolean, true⟩
    ∧ getType 23 = ⟨GType.int, false⟩
    ∧ getType 1186 = ⟨GType.Interval, false⟩
    ∧ (∀ p ∈ typeRegistry, getType p.1 = p.2) := by
  refine ⟨?_, rfl, rfl, rfl, by decide⟩
  intro oid h
  unfold getType
  have hnone : typeRegistry.find? (fun p => p.1 = oid) = none := by
    rw [List.find?_eq_none]
    intro p hp
    simp only [decide_eq_true_eq]
    exact fun he => h (he ▸ List.mem_map_of_mem Prod.fst hp)
  rw [hnone]
  rfl

/-- Witness for C8 at the unregistered oid 999. -/
theorem getType_default_witness : getType 999 = ⟨GType.string, false⟩ :=
  getType_registered_and_default.1 999 (by decide)

/-- Claim C7 (refuted): the pattern matcher does *not* give `?` the
any-single-character glob meaning.  The escaping pass rewrites `?` to
`\?` and the wildcard pass then rewrites that very `?`, leaving `\.{1}` —
an escaped literal dot.  So `a?b` fails to match `axb` and matches
exactly `a.b`, while `*` (absent from the escaping class) behaves as the
glob any-run. -/
theorem glob_question_mark_matches_literal_dot :
    matchGitignorePattern "a?b" "axb" = some false
    ∧ matchGitignorePattern "a?b" "a.b" = some true
    ∧ matchGitignorePattern "a*b" "axyzb" = some true
    ∧ matchGitignorePattern "a*b" "ab" = some true := by
  refine ⟨rfl, rfl, rfl, rfl⟩

/-- Claim C6 (refuted in part): `maxRows` outside `1..100` does clamp to
100, but `page = 0` passes the `page >= 0` guard and yields the zero-based
page number `-1`, hence the offset `-maxRows` (not 0) — only the displayed
`currentPage` is 1 — and `hasNextPage` compares the *raw* count-query
`pages` against the zero-based `pageNumber`, so at `page = 3` with raw
`pages = 2` it is `false` although `pages field - currentPage > 0`. -/
theorem pagination_clamp_divergence :
    numberOfResults 500 = 100
    ∧ numberOfResults 0 = 100
    ∧ numberOfResults 20 = 20
    ∧ resolverPageNumber 0 = -1
    ∧ resolverOffset 0 20 = -20
    ∧ resolverCurrentPage 0 = 1
    ∧ resolverHasNextPage (some 2) 3 = false
    ∧ resolverPagesField (some 2) - resolverCurrentPage 3 > 0 := by
  decide

/-- Claim C1 (refuted): in a compiled delete statement whose predicate
holds a scalar condition followed by an ARRAY (`IN`) condition, the
parameter list has three entries but the placeholder indices are
`[1, 1, 2]` — the ARRAY branch restarts its placeholders at `$1`
regardless of the parameters already consumed, so `$1` is referenced
twice and `$3` never, instead of the contiguous run `$1, $2, $3`. -/
theorem delete_array_placeholders_not_contiguous :
    (makeMutationDelete ⟨"s"⟩ tblTwoInts whereANDArray).whereQuery
        = "WHERE a = $1::int4 AND b IN ($1::int4, $2::int4)"
    ∧ (makeMutationDelete ⟨"s"⟩ tblTwoInts whereANDArray).values
        = [JSVal.str "1", JSVal.str "2", JSVal.str "3"]
    ∧ placeholderIndices (makeMutationDelete ⟨"s"⟩ tblTwoInts whereANDArray).whereQuery
        = [1, 1, 2] := by
  refine ⟨rfl, rfl, rfl⟩

/-- Claim C2 (refuted): on a table whose `defaultWhere` requires the
non-nullable variable `v`, the select builder raises no error when the
variable map omits `v` (empty map, or the argument omitted), and the
insert builder raises none when its variables argument is omitted — the
subset check is inverted, so a *missing* required variable never throws. -/
theorem missing_required_variable_not_raised :
    exceptIsOk (makeQuery ⟨"public"⟩ tblGuarded 20 0 none (some []) none none) = true
    ∧ exceptIsOk (makeQuery ⟨"public"⟩ tblGuarded 20 0 none none none none) = true
    ∧ exceptIsOk (makeMutationCreate ⟨"public"⟩ tblGuarded [[("a", JSVal.int 1)]] none) = true := by
  refine ⟨rfl, rfl, rfl⟩

/-- Claim C3 (refuted): compiling a predicate against a table with
`defaultWhere = "$v = TRUE"` and the single declared variable `v` (one
variable value already seeded in the parameter list) produces
`WHERE ($0 = TRUE) = TRUE AND a = $2::int4` — the parenthesised
`= TRUE`-compared AND-prefix is as described, but the first variable is
rewritten to `$0` (the index runs from `i + (startVarIndex ?? 0)` with
`i = 0`), not `$1`, leaving `$1` unreferenced. -/
theorem defaultWhere_first_variable_rewritten_to_zero :
    whereSQL whereEq5 [JSVal.str "7"] tblGuarded none =
      ⟨"WHERE ($0 = TRUE) = TRUE AND a = $2::int4",
       [JSVal.str "7", JSVal.str "5"],
       { tblGuarded with defaultWhere := some "$0 = TRUE" }⟩ := by
  rfl

/-- Claim C4: update and delete statements built from a condition tree
with neither an `AND` nor an `OR` branch carry exactly the predicate
`WHERE TRUE IS FALSE`, and no predicate parameters: the delete's
parameter list is empty and the update's holds only the update values. -/
theorem update_delete_without_filter_impossible_predicate
    (schema : SchemaName) (t : Table) (value : List (String × JSVal)) (w : WhereType)
    (hA : w.AND = none) (hO : w.OR = none) :
    (makeMutationUpdate schema t value w).whereQuery = "WHERE TRUE IS FALSE"
    ∧ (makeMutationUpdate schema t value w).values = updateValuesList t value
    ∧ (makeMutationDelete schema t w).whereQuery = "WHERE TRUE IS FALSE"
    ∧ (makeMutationDelete schema t w).values = [] := by
  simp [makeMutationUpdate, makeMutationDelete, hA, hO]

/-- Witness for C4 on a concrete update/delete without filter tree. -/
theorem update_delete_without_filter_impossible_predicate_witness :
    (makeMutationUpdate ⟨"public"⟩ tblTwoInts [("a", JSVal.int 7)] {}).whereQuery
        = "WHERE TRUE IS FALSE"
    ∧ (makeMutationUpdate ⟨"public"⟩ tblTwoInts [("a", JSVal.int 7)] {}).values
        = updateValuesList tblTwoInts [("a", JSVal.int 7)]
    ∧ (makeMutationDelete ⟨"public"⟩ tblTwoInts {}).whereQuery = "WHERE TRUE IS FALSE"
    ∧ (makeMutationDelete ⟨"public"⟩ tblTwoInts {}).values = [] :=
  update_delete_without_filter_impossible_predicate ⟨"public"⟩ tblTwoInts
    [("a", JSVal.int 7)] {} rfl rfl

/-- Appending entry lists of a condition-tree node. -/
def WhereEntries.append : WhereEntries → WhereEntries → WhereEntries
  | .nil, ys => ys
  | .cons e xs, ys => .cons e (xs.append ys)

/-- The entry walk distributes over appended entry lists. -/
theorem mapWhereEntries_append (t : Table) (sv : Option Nat) (ty : String) :
    (xs ys : WhereEntries) → (st : MapWhereState) →
      mapWhereEntries t sv ty (xs.append ys) st
        = mapWhereEntries t sv ty ys (mapWhereEntries t sv ty xs st)
  | .nil, _ys, _st => rfl
  | .cons e xs, ys, st => by
      simp only [WhereEntries.append, mapWhereEntries]
      exact mapWhereEntries_append t sv ty xs ys _

/-- A leaf entry whose key resolves to no column (and is not the `AND` or
`OR` key) leaves the walk state untouched. -/
theorem mapWhereEntry_unknown_leaf (t : Table) (sv : Option Nat) (ty : String)
    (k : String) (s : Option SingleCond) (a : Option ArrayCond) (st : MapWhereState)
    (hcol : ∀ c ∈ t.columns, c.name ≠ k) (hA : k ≠ "AND") (hO : k ≠ "OR") :
    mapWhereEntry t sv ty (.leaf k s a) st = st := by
  simp only [mapWhereEntry]
  rw [if_neg (by simp [hA, hO])]
  have hnone : t.columns.find? (fun c => c.name = k) = none := by
    rw [List.find?_eq_none]
    intro c hc
    simpa using hcol c hc
  rw [hnone]

/-- Claim C5: a condition-tree leaf naming a column absent from the
table's column list is silently dropped — compiling a node whose entries
contain such a leaf yields exactly the SQL and parameter list of the node
without it, with all clauses for known columns intact and no error. -/
theorem unknown_column_leaf_silently_dropped (t : Table) (sv : Option Nat) (ty : String)
    (pre post : WhereEntries) (k : String) (s : Option SingleCond) (a : Option ArrayCond)
    (hcol : ∀ c ∈ t.columns, c.name ≠ k) (hA : k ≠ "AND") (hO : k ≠ "OR")
    (values : List JSVal) :
    mapWhere t sv (.mk (pre.append (.cons (.leaf k s a) post))) ty values
      = mapWhere t sv (.mk (pre.append post)) ty values := by
  simp only [mapWhere]
  rw [mapWhereEntries_append, mapWhereEntries_append]
  simp only [mapWhereEntries]
  rw [mapWhereEntry_unknown_leaf t sv ty k s a _ hcol hA hO]

/-- Witness for C5: dropping the unknown column `nosuch` in front of the
known column `a` changes nothing. -/
theorem unknown_column_leaf_silently_dropped_witness :
    mapWhere tblTwoInts none
        (.mk (WhereEntries.nil.append
          (.cons (.leaf "nosuch" (some ⟨.EQUAL, some (.int 3)⟩) none)
            (.cons (.leaf "a" (some ⟨.EQUAL, some (.int 5)⟩) none) .nil)))) "AND" []
      = mapWhere tblTwoInts none
          (.mk (WhereEntries.nil.append
            (.cons (.leaf "a" (some ⟨.EQUAL, some (.int 5)⟩) none) .nil))) "AND" [] :=
  unknown_column_leaf_silently_dropped tblTwoInts none "AND" .nil
    (.cons (.leaf "a" (some ⟨.EQUAL, some (.int 5)⟩) none) .nil)
    "nosuch" (some ⟨.EQUAL, some (.int 3)⟩) none (by decide) (by decide) (by decide) []

/-- The table returned by `whereSQL` is the input table with only its
`defaultWhere` possibly rewritten. -/
theorem whereSQL_table_eq (w : WhereType) (values : List JSVal) (t : Table)
    (sv : Option Nat) :
    (whereSQL w values t sv).table =
      if jsTruthyStrOpt t.defaultWhere && t.variables.isSome then
        { t with defaultWhere := substituteDefaultWhere (t.variables.getD []) sv t.defaultWhere }
      else t := rfl

/-- Claim C9 (counterexample): predicate compilation is *not* stateless on
the table — `whereSQL` rewrites `tblGuarded`'s `defaultWhere` from
`$v = TRUE` to `$0 = TRUE` in place, so a second compilation observes a
different table. -/
theorem whereSQL_mutates_defaultWhere_counterexample :
    (whereSQL {} [] tblGuarded none).table ≠ tblGuarded
    ∧ (whereSQL {} [] tblGuarded none).table.defaultWhere = some "$0 = TRUE" := by
  decide

/-- Claim C9 (amended): predicate compilation leaves every table field
except `defaultWhere` unchanged (name, columns, variables, operations,
cols), and leaves the whole table unchanged whenever the table declares no
variables or has no non-empty `defaultWhere`; only the `defaultWhere`
template itself may be rewritten in place. -/
theorem whereSQL_table_frame (w : WhereType) (values : List JSVal) (t : Table)
    (sv : Option Nat) :
    ((whereSQL w values t sv).table.name = t.name
      ∧ (whereSQL w values t sv).table.columns = t.columns
      ∧ (whereSQL w values t sv).table.variables = t.variables
      ∧ (whereSQL w values t sv).table.operations = t.operations
      ∧ (whereSQL w values t sv).table.cols = t.cols)
    ∧ (t.variables = none → (whereSQL w values t sv).table = t)
    ∧ (jsTruthyStrOpt t.defaultWhere = false → (whereSQL w values t sv).table = t) := by
  simp only [whereSQL_table_eq]
  refine ⟨?_, ?_, ?_⟩
  · split <;> simp
  · intro hv; simp [hv]
  · intro hdw; simp [hdw]

/-- Witness for C9's amended theorem: a table with no variables is
returned unchanged. -/
theorem whereSQL_table_frame_witness :
    (whereSQL {} [] tblTwoInts none).table = tblTwoInts :=
  (whereSQL_table_frame {} [] tblTwoInts none).2.1 rfl

/-- Claim C10: the select builder's variable check throws exactly when the
supplied variable map has a key outside the table's non-nullable
`defaultWhere` variables — so a declared nullable variable triggers the
error even with all required variables present, while an empty (or
omitted) variable map never does. -/
theorem makeQuery_variable_check_iff (schema : SchemaName) (t : Table)
    (limit offset : Int) (w : Option WhereType) (vm : List (String × JSVal))
    (ob : Option (List (String × String))) (cols : Option (List String)) :
    (exceptIsOk (makeQuery schema t limit offset w (some vm) ob cols) = false
        ↔ ∃ k ∈ vm.map Prod.fst, k ∉ requiredVariables t)
    ∧ exceptIsOk (makeQuery schema t limit offset w (some []) ob cols) = true
    ∧ exceptIsOk (makeQuery schema t limit offset w none ob cols) = true := by
  have key : ∀ vs : Option (List (String × JSVal)),
      exceptIsOk (makeQuery schema t limit offset w vs ob cols)
        = ((vs.getD []).map Prod.fst).all (fun v => (requiredVariables t).contains v) := by
    intro vs
    by_cases h : (((vs.getD []).map Prod.fst).all (fun v => (requiredVariables t).contains v)) = true
    · simp only [makeQuery, h]
      simp [exceptIsOk]
    · have h2 : (((vs.getD []).map Prod.fst).all (fun v => (requiredVariables t).contains v)) = false := by
        simpa using h
      simp only [makeQuery, h2]
      simp [exceptIsOk]
  refine ⟨?_, ?_, ?_⟩
  · rw [key (some vm)]
    simp only [Option.getD_some]
    constructor
    · intro hall
      have : ¬ ∀ k ∈ vm.map Prod.fst, (requiredVariables t).contains k = true := by
        rw [← List.all_eq_true]
        simp [hall]
      push_neg at this
      obtain ⟨k, hk, hnk⟩ := this
      exact ⟨k, hk, fun hmem => hnk (List.elem_iff.mpr hmem)⟩
    · rintro ⟨k, hk, hnk⟩
      rw [Bool.eq_false_iff]
      intro hall
      exact hnk (List.elem_iff.mp (List.all_eq_true.mp hall k hk))
  · rw [key (some [])]; rfl
  · rw [key none]; rfl

end Pgql
